import Mathlib

/-!
Shallow embedding of the caption-to-annotation pipeline of
`src/src/captioner.py` (class `AdvancedImageCaptioner` and the module-level
helpers).  The model-inference, image-loading and file-system parts are
external collaborators per the design document; the rule-based text
classification is embedded faithfully:

* Python `w in s` (substring containment) is embedded as list-infix on the
  character lists (`pyIn`).
* `re.findall` over the word-boundary alternation patterns of
  `extract_tags_from_caption` is embedded as a left-to-right scan that, at
  each position, tries the alternatives in pattern order and, on a match,
  continues after the matched text (`scanWB`).  All alternatives start and
  end with word characters, for which `\b` at the ends amounts to the
  neighbouring character (if any) not being a word character.
* Python `list(set(xs))` is embedded as `List.dedup`; Python set iteration
  order is unspecified, the embedding fixes a deterministic order (the
  design document flags this nondeterminism in its section 9).
* `datetime.now().isoformat()` and `os.path.basename` are I/O / filesystem
  glue; the orchestrator takes `filename` and `timestamp` as parameters.
* floating-point confidences (0.85, 0.80) are carried in hundredths.
-/

/-- Word characters of the regex `\b` boundary (`[a-zA-Z0-9_]`). -/
def isWordChar (c : Char) : Bool :=
  (decide ('a' ≤ c) && decide (c ≤ 'z')) ||
  (decide ('A' ≤ c) && decide (c ≤ 'Z')) ||
  (decide ('0' ≤ c) && decide (c ≤ '9')) ||
  (c == '_')

/-- Python `caption.lower()`, as a character list (the captions are ASCII,
for which per-character lowering agrees with `str.lower`). -/
def pylower (s : String) : List Char :=
  s.data.map Char.toLower

/-- Python substring containment `w in s` on a lowered caption. -/
def pyIn (w : String) (s : List Char) : Bool :=
  decide (w.data <:+: s)

/-- Python `any(word in s for word in ws)`. -/
def anyIn (s : List Char) (ws : List String) : Bool :=
  ws.any (fun w => pyIn w s)

/-- `true` when position `i` of `s` is past the end or holds a non-word
character; used for the `\b` checks around a literal alternative. -/
def notWordCharAt (s : List Char) (i : Nat) : Bool :=
  match s[i]? with
  | none => true
  | some c => !isWordChar c

/-- The literal `w` matches at position `i` of `s` with `\b` on both sides
(the alternatives of every pattern begin and end with word characters, so
the boundary amounts to the neighbour, if present, not being a word
character). -/
def wbMatchAt (s : List Char) (i : Nat) (w : List Char) : Bool :=
  decide ((s.drop i).take w.length = w) &&
  ((i == 0) || notWordCharAt s (i - 1)) &&
  notWordCharAt s (i + w.length)

/-- First alternative (in pattern order) matching at position `i`, as the
regex alternation does for literal alternatives. -/
def findFirstAlt (alts : List String) (s : List Char) (i : Nat) : Option String :=
  alts.find? (fun w => wbMatchAt s i w.data)

/-- Left-to-right scan of `re.findall`: at each position try the
alternatives; on a match emit it and resume after the matched text.  `fuel`
bounds the recursion; `findallWB` supplies enough of it. -/
def scanWB (alts : List String) (s : List Char) : Nat → Nat → List String
  | 0, _ => []
  | fuel + 1, i =>
    match findFirstAlt alts s i with
    | some w => w :: scanWB alts s fuel (i + w.data.length)
    | none => scanWB alts s fuel (i + 1)

/-- `re.findall(pattern, s)` for a `\b(?:w1|w2|...)\b` pattern. -/
def findallWB (alts : List String) (s : List Char) : List String :=
  scanWB alts s (s.length + 1) 0

/-- The `tag_patterns` table of `extract_tags_from_caption`, category by
category, each pattern given by its list of literal alternatives in pattern
order. -/
def tag_patterns : List (String × List String) :=
  [("people", ["person", "people", "man", "woman", "child", "boy", "girl",
      "baby", "adult"]),
   ("actions", ["running", "walking", "sitting", "standing", "jumping",
      "dancing", "playing", "working", "exercising", "cooking", "reading",
      "writing", "driving", "riding", "swimming", "flying", "climbing",
      "lifting", "pushing", "pulling", "throwing", "catching", "kicking",
      "hitting"]),
   ("sports", ["football", "basketball", "tennis", "soccer", "baseball",
      "golf", "hockey", "volleyball", "boxing", "wrestling", "cycling",
      "skiing", "surfing", "skateboarding", "yoga", "gym", "fitness",
      "workout", "exercise", "bench press", "squats", "deadlift"]),
   ("locations", ["park", "beach", "street", "road", "building", "house",
      "office", "school", "hospital", "restaurant", "store", "mall", "gym",
      "stadium", "field", "court", "track", "pool", "lake", "river",
      "mountain", "forest", "desert", "city", "town", "village"]),
   ("objects", ["car", "truck", "bike", "bicycle", "motorcycle", "bus",
      "train", "plane", "boat", "chair", "table", "bed", "computer",
      "phone", "camera", "book", "ball", "bottle", "cup", "plate", "food",
      "tree", "flower", "animal", "dog", "cat", "bird"]),
   ("weather", ["sunny", "cloudy", "rainy", "snowy", "foggy", "windy",
      "storm", "clear", "bright", "dark", "day", "night", "morning",
      "afternoon", "evening", "sunset", "sunrise"]),
   ("colors", ["red", "blue", "green", "yellow", "orange", "purple",
      "pink", "black", "white", "gray", "grey", "brown", "silver",
      "gold"]),
   ("emotions", ["happy", "sad", "angry", "excited", "surprised", "calm",
      "peaceful", "energetic", "tired", "focused", "concentrated",
      "relaxed"])]

/-- `AdvancedImageCaptioner.extract_tags_from_caption`: lower-case the
caption, collect the `re.findall` matches of every category pattern, and
deduplicate (`list(set(tags))`). -/
def extract_tags_from_caption (caption : String) : List String :=
  let caption_lower := pylower caption
  let tags := (tag_patterns.map (fun p => findallWB p.2 caption_lower)).flatten
  tags.dedup

/-- The five-field context record built by `analyze_scene_context`.  The
Python function always creates the dict with exactly these keys, in this
order; a structure captures that shape.  The final result record stores it
as a key-value mapping (`SceneContext.toPairs`), since the error path of
the orchestrator stores an empty dict there instead. -/
structure SceneContext where
  setting : String
  time_of_day : String
  activity_level : String
  social_context : String
  mood : String
deriving DecidableEq, Repr

/-- The dict contents of a `SceneContext`, keys in creation order. -/
def SceneContext.toPairs (c : SceneContext) : List (String × String) :=
  [("setting", c.setting), ("time_of_day", c.time_of_day),
   ("activity_level", c.activity_level), ("social_context", c.social_context),
   ("mood", c.mood)]

/- The keyword groups of `analyze_scene_context`, one list per branch, in
the order the branches appear in the source. -/

def setting_indoor_keywords : List String :=
  ["indoor", "inside", "room", "office", "house", "building"]

def setting_outdoor_keywords : List String :=
  ["outdoor", "outside", "park", "street", "beach", "field", "forest"]

def time_night_keywords : List String := ["night", "evening", "dark"]

def time_morning_keywords : List String := ["morning", "sunrise"]

def time_day_keywords : List String := ["afternoon", "day", "sunny", "bright"]

def time_evening_keywords : List String := ["sunset", "dusk"]

def activity_high_keywords : List String :=
  ["running", "jumping", "dancing", "playing", "exercising", "working out"]

def activity_medium_keywords : List String := ["walking", "standing", "working"]

def activity_low_keywords : List String := ["sitting", "lying", "sleeping", "resting"]

def social_group_keywords : List String :=
  ["group", "people", "crowd", "team", "family"]

def social_individual_keywords : List String :=
  ["person", "man", "woman", "individual"]

def mood_positive_keywords : List String :=
  ["smiling", "happy", "celebrating", "laughing"]

def mood_focused_keywords : List String :=
  ["focused", "concentrated", "serious", "determined"]

def mood_calm_keywords : List String := ["relaxed", "calm", "peaceful"]

/-- The `setting` branch chain of `analyze_scene_context`. -/
def settingOf (cl : List Char) : String :=
  if anyIn cl setting_indoor_keywords then "indoor"
  else if anyIn cl setting_outdoor_keywords then "outdoor"
  else "unknown"

/-- The `time_of_day` branch chain of `analyze_scene_context`. -/
def timeOfDayOf (cl : List Char) : String :=
  if anyIn cl time_night_keywords then "night"
  else if anyIn cl time_morning_keywords then "morning"
  else if anyIn cl time_day_keywords then "day"
  else if anyIn cl time_evening_keywords then "evening"
  else "unknown"

/-- The `activity_level` branch chain of `analyze_scene_context`. -/
def activityLevelOf (cl : List Char) : String :=
  if anyIn cl activity_high_keywords then "high"
  else if anyIn cl activity_medium_keywords then "medium"
  else if anyIn cl activity_low_keywords then "low"
  else "unknown"

/-- The `social_context` branch chain of `analyze_scene_context`. -/
def socialContextOf (cl : List Char) : String :=
  if anyIn cl social_group_keywords then "group"
  else if anyIn cl social_individual_keywords then "individual"
  else "unknown"

/-- The `mood` branch chain of `analyze_scene_context`. -/
def moodOf (cl : List Char) : String :=
  if anyIn cl mood_positive_keywords then "positive"
  else if anyIn cl mood_focused_keywords then "focused"
  else if anyIn cl mood_calm_keywords then "calm"
  else "neutral"

/-- `AdvancedImageCaptioner.analyze_scene_context`: lower-case the caption
and decide each of the five fields by its branch chain; each branch tests
`any(word in caption_lower for word in [...])`, i.e. substring
containment. -/
def analyze_scene_context (caption : String) : SceneContext :=
  let caption_lower := pylower caption
  { setting := settingOf caption_lower,
    time_of_day := timeOfDayOf caption_lower,
    activity_level := activityLevelOf caption_lower,
    social_context := socialContextOf caption_lower,
    mood := moodOf caption_lower }

/-- Python `sep.join(parts)`. -/
def joinSep (sep : String) : List String → String
  | [] => ""
  | [a] => a
  | a :: b :: l => a ++ sep ++ joinSep sep (b :: l)

/-- `AdvancedImageCaptioner.create_ai_description`: start from the caption,
append one templated sentence per non-default context field (the source
has branches for `setting`, `time_of_day`, `activity_level` and
`social_context`; there is no branch for `mood`), then, when the tag list
minus the person terms is non-empty, a sentence listing up to five of the
remaining tags; join everything with single spaces. -/
def create_ai_description (caption : String) (context : SceneContext)
    (tags : List String) : String :=
  let key_tags := tags.filter (fun t => !(["person", "people", "man", "woman"].contains t))
  let description_parts : List String :=
    [caption] ++
    (if context.setting ≠ "unknown" then
       ["This appears to be an " ++ context.setting ++ " scene."] else []) ++
    (if context.time_of_day ≠ "unknown" then
       ["The time appears to be " ++ context.time_of_day ++ "."] else []) ++
    (if context.activity_level ≠ "unknown" then
       ["The activity level in the image is " ++ context.activity_level ++ "."] else []) ++
    (if context.social_context ≠ "unknown" then
       (if context.social_context = "group" then
          ["This involves multiple people or a group setting."]
        else ["This focuses on an individual person."]) else []) ++
    (if tags ≠ [] ∧ key_tags ≠ [] then
       ["Key elements include: " ++ joinSep ", " (key_tags.take 5) ++ "."] else [])
  joinSep " " description_parts

/-- The distinct candidate topics accumulated by
`AdvancedImageCaptioner.generate_related_topics` before the
`list(set(topics))[:5]` step: the topic lists of every matched trigger
(three tag triggers, two context triggers), deduplicated.  As a set of
strings this is exactly `set(topics)` in the source. -/
def related_topics_pool (tags : List String) (context : SceneContext) :
    List String :=
  let topics : List String :=
    (if ["running", "exercise", "gym", "fitness"].any (fun t => tags.contains t) then
       ["fitness", "health", "exercise routines", "nutrition", "wellness"] else []) ++
    (if ["beach", "outdoor", "park"].any (fun t => tags.contains t) then
       ["outdoor activities", "nature", "travel", "recreation"] else []) ++
    (if ["sports", "basketball", "football", "tennis"].any (fun t => tags.contains t) then
       ["sports", "athletics", "competition", "team activities"] else []) ++
    (if context.setting = "outdoor" then
       ["outdoor lifestyle", "fresh air benefits"] else []) ++
    (if context.activity_level = "high" then
       ["active lifestyle", "energy", "motivation"] else [])
  topics.dedup

/-- An admissible iteration order of a Python set holding exactly the
elements of `pool`: any enumeration of those elements.  CPython
randomizes string hashing per process, so `list(set(...))` is only
guaranteed to produce some such enumeration; properties that depend on
which elements survive a truncation must hold for every admissible
order to be guaranteed by the program. -/
abbrev IsSetOrder (order pool : List String) : Prop :=
  order.Perm pool

/-- `AdvancedImageCaptioner.generate_related_topics`:
`list(set(topics))[:5]` over the candidate pool.  The embedding fixes one
admissible set order (the deduplication order of `related_topics_pool`);
facts that are sensitive to which five entries survive the truncation are
stated over every `IsSetOrder` enumeration instead of over this fixed
choice. -/
def generate_related_topics (tags : List String) (context : SceneContext) :
    List String :=
  (related_topics_pool tags context).take 5

/-- One entry of the `captions` list.  The Python dicts carry keys
`"type"`, `"text"` and `"confidence"`; each is optional here so that a
dict missing a key (as in the `[{}]` default of `image_to_caption`) is
representable.  Confidence is in hundredths (0.85 → 85) to avoid floating
point. -/
structure CaptionVariant where
  ctype : Option String
  text : Option String
  confidence : Option Nat
deriving DecidableEq, Repr

/-- The `image_properties` sub-record of the success path (width, height,
format; the rounded floating-point aspect value is display glue and not
modelled). -/
structure ImageProps where
  width : Nat
  height : Nat
  format : String
deriving DecidableEq, Repr

/-- The result dict of `generate_ai_optimized_description`.  `error` and
`image_properties` are `Option` because each key is present on exactly one
of the two paths; `scene_context` is a key-value mapping since the error
path stores an empty dict there. -/
structure AIRecord where
  filename : String
  timestamp : String
  error : Option String
  image_properties : Option ImageProps
  ai_description : String
  captions : List CaptionVariant
  tags : List String
  scene_context : List (String × String)
  related_topics : List String
deriving DecidableEq, Repr

/-- Python `sorted` on strings (insertion sort; lexicographic order on
code points, which is `String` order here). -/
def insertSorted (a : String) : List String → List String
  | [] => [a]
  | b :: l => if a ≤ b then a :: b :: l else b :: insertSorted a l

/-- Python `sorted(tags)`. -/
def pysorted (l : List String) : List String :=
  l.foldr insertSorted []

/-- What the excluded collaborators deliver to the orchestrator on
success: image properties, the primary (standard) caption text, and the
caption-variant list. -/
structure UpstreamOk where
  props : ImageProps
  primary : String
  caption_variants : List CaptionVariant
deriving DecidableEq, Repr

/-- `AdvancedImageCaptioner.generate_ai_optimized_description`.  Image
loading, model inference, `os.path.basename` and `datetime.now` are
external per the design document, so the filename, the timestamp and the
upstream outcome (success payload, or the message of the caught
exception) are
parameters.  On success it runs extraction, context inference, synthesis
and topic recommendation on the primary caption; on error it returns the
fixed-shape fallback record without running any of them. -/
def generate_ai_optimized_description (filename timestamp : String)
    (upstream : Except String UpstreamOk) : AIRecord :=
  match upstream with
  | Except.ok u =>
    let tags := extract_tags_from_caption u.primary
    let scene_context := analyze_scene_context u.primary
    let ai_description := create_ai_description u.primary scene_context tags
    { filename := filename,
      timestamp := timestamp,
      error := none,
      image_properties := some u.props,
      ai_description := ai_description,
      captions := u.caption_variants,
      tags := pysorted tags,
      scene_context := scene_context.toPairs,
      related_topics := generate_related_topics tags scene_context }
  | Except.error e =>
    { filename := filename,
      timestamp := timestamp,
      error := some e,
      image_properties := none,
      ai_description := "Unable to process this image. Please try again or use a different image.",
      captions := [],
      tags := [],
      scene_context := [],
      related_topics := ["image analysis", "technical support"] }

/-- The final expression of `image_to_caption`:
`result.get("captions", [{}])[0].get("text", "Unable to generate caption")`.
The `captions` key is present in both record shapes, so `.get` returns the
stored list; indexing `[0]` raises `IndexError` on an empty list, modelled
as `Except.error`; otherwise `.get("text", ...)` falls back exactly when
the first dict has no `"text"` key. -/
def caption_text_of (result : AIRecord) : Except String String :=
  match result.captions with
  | [] => Except.error "IndexError: list index out of range"
  | c :: _ => Except.ok (c.text.getD "Unable to generate caption")

/-- Module-level `image_to_caption`: generate the record, then read the
first caption text out of it. -/
def image_to_caption (filename timestamp : String)
    (upstream : Except String UpstreamOk) : Except String String :=
  caption_text_of (generate_ai_optimized_description filename timestamp upstream)

/-! Helper lemmas. -/

/-- Everything the findall scan emits matches with word boundaries at some
position of the scanned text. -/
lemma scanWB_sound (alts : List String) (s : List Char) :
    ∀ (fuel i : Nat) (w : String), w ∈ scanWB alts s fuel i →
      ∃ j, wbMatchAt s j w.data = true := by
  intro fuel
  induction fuel with
  | zero => intro i w h; simp [scanWB] at h
  | succ n ih =>
    intro i w h
    rw [scanWB] at h
    cases hf : findFirstAlt alts s i with
    | none => rw [hf] at h; exact ih _ _ h
    | some v =>
      rw [hf] at h
      rcases List.mem_cons.mp h with rfl | h2
      · have hf2 : List.find? (fun x => wbMatchAt s i x.data) alts = some w := by
          simpa [findFirstAlt] using hf
        have h3 := List.find?_some hf2
        exact ⟨i, by simpa using h3⟩
      · exact ih _ _ h2

/-- Every extracted tag is a word-boundary match somewhere in the lowered
caption. -/
lemma extract_tags_sound (caption : String) (t : String)
    (ht : t ∈ extract_tags_from_caption caption) :
    ∃ j, wbMatchAt (pylower caption) j t.data = true := by
  unfold extract_tags_from_caption at ht
  rw [List.mem_dedup, List.mem_flatten] at ht
  rcases ht with ⟨l, hl, htl⟩
  rw [List.mem_map] at hl
  rcases hl with ⟨p, hp, rfl⟩
  exact scanWB_sound _ _ _ _ _ htl

/-- Each joined part occurs inside the joined string. -/
lemma mem_joinSep_infix (sep : String) :
    ∀ (l : List String) (p : String), p ∈ l → p.data <:+: (joinSep sep l).data := by
  intro l
  induction l with
  | nil => intro p h; simp at h
  | cons a l ih =>
    intro p h
    cases l with
    | nil =>
      rw [List.mem_singleton] at h
      subst h
      exact List.infix_refl _
    | cons b l2 =>
      rw [joinSep]
      rcases List.mem_cons.mp h with rfl | h2
      · refine List.IsPrefix.isInfix ?_
        simp [String.data_append]
      · refine (ih p h2).trans (List.IsSuffix.isInfix ?_)
        simp only [String.data_append]
        exact List.suffix_append _ _

/-- The `setting` branch chain only produces its enumerated values. -/
lemma settingOf_mem (cl : List Char) :
    settingOf cl ∈ ["indoor", "outdoor", "unknown"] := by
  unfold settingOf
  repeat' split
  all_goals decide

/-- The `time_of_day` branch chain only produces its enumerated values. -/
lemma timeOfDayOf_mem (cl : List Char) :
    timeOfDayOf cl ∈ ["morning", "day", "evening", "night", "unknown"] := by
  unfold timeOfDayOf
  repeat' split
  all_goals decide

/-- The `activity_level` branch chain only produces its enumerated values. -/
lemma activityLevelOf_mem (cl : List Char) :
    activityLevelOf cl ∈ ["high", "medium", "low", "unknown"] := by
  unfold activityLevelOf
  repeat' split
  all_goals decide

/-- The `social_context` branch chain only produces its enumerated values. -/
lemma socialContextOf_mem (cl : List Char) :
    socialContextOf cl ∈ ["group", "individual", "unknown"] := by
  unfold socialContextOf
  repeat' split
  all_goals decide

/-- The `mood` branch chain only produces its enumerated values. -/
lemma moodOf_mem (cl : List Char) :
    moodOf cl ∈ ["positive", "focused", "calm", "neutral"] := by
  unfold moodOf
  repeat' split
  all_goals decide

/-! Claim theorems. -/

/-- Claim C1, counterexample: the caption `"personally"` contains the
keyword `person` only inside the longer word `personally`, yet the
`social_context` group still triggers, because the branches test Python
substring containment, not intersection with the set of the words of the
caption.  The claim predicts `"unknown"` here. -/
theorem substring_keyword_triggers_social_context :
    (analyze_scene_context "personally").social_context = "individual" ∧
    "individual" ≠ "unknown" := by decide

/-- Claim C1 (amended): for every scene-context field of
`analyze_scene_context`, a keyword group matches exactly when some keyword
of the group occurs as a substring of the lowered caption (Python `in`);
a field keeps its default value exactly when no keyword of any of its
groups occurs as a substring.  A keyword occurring only inside a longer
word therefore does trigger its group. -/
theorem scene_context_defaults_iff_no_substring_match (caption : String) :
    ((analyze_scene_context caption).setting = "unknown" ↔
      (anyIn (pylower caption) setting_indoor_keywords = false ∧
       anyIn (pylower caption) setting_outdoor_keywords = false)) ∧
    ((analyze_scene_context caption).time_of_day = "unknown" ↔
      (anyIn (pylower caption) time_night_keywords = false ∧
       anyIn (pylower caption) time_morning_keywords = false ∧
       anyIn (pylower caption) time_day_keywords = false ∧
       anyIn (pylower caption) time_evening_keywords = false)) ∧
    ((analyze_scene_context caption).activity_level = "unknown" ↔
      (anyIn (pylower caption) activity_high_keywords = false ∧
       anyIn (pylower caption) activity_medium_keywords = false ∧
       anyIn (pylower caption) activity_low_keywords = false)) ∧
    ((analyze_scene_context caption).social_context = "unknown" ↔
      (anyIn (pylower caption) social_group_keywords = false ∧
       anyIn (pylower caption) social_individual_keywords = false)) ∧
    ((analyze_scene_context caption).mood = "neutral" ↔
      (anyIn (pylower caption) mood_positive_keywords = false ∧
       anyIn (pylower caption) mood_focused_keywords = false ∧
       anyIn (pylower caption) mood_calm_keywords = false)) := by
  refine ⟨?_, ?_, ?_, ?_, ?_⟩
  · cases h1 : anyIn (pylower caption) setting_indoor_keywords <;>
    cases h2 : anyIn (pylower caption) setting_outdoor_keywords <;>
    simp [analyze_scene_context, settingOf, h1, h2]
  · cases h1 : anyIn (pylower caption) time_night_keywords <;>
    cases h2 : anyIn (pylower caption) time_morning_keywords <;>
    cases h3 : anyIn (pylower caption) time_day_keywords <;>
    cases h4 : anyIn (pylower caption) time_evening_keywords <;>
    simp [analyze_scene_context, timeOfDayOf, h1, h2, h3, h4]
  · cases h1 : anyIn (pylower caption) activity_high_keywords <;>
    cases h2 : anyIn (pylower caption) activity_medium_keywords <;>
    cases h3 : anyIn (pylower caption) activity_low_keywords <;>
    simp [analyze_scene_context, activityLevelOf, h1, h2, h3]
  · cases h1 : anyIn (pylower caption) social_group_keywords <;>
    cases h2 : anyIn (pylower caption) social_individual_keywords <;>
    simp [analyze_scene_context, socialContextOf, h1, h2]
  · cases h1 : anyIn (pylower caption) mood_positive_keywords <;>
    cases h2 : anyIn (pylower caption) mood_focused_keywords <;>
    cases h3 : anyIn (pylower caption) mood_calm_keywords <;>
    simp [analyze_scene_context, moodOf, h1, h2, h3]

/-- Claim C1 witness: on `"personally"` no setting keyword occurs, so the
`setting` field keeps its default. -/
theorem scene_context_defaults_witness :
    (analyze_scene_context "personally").setting = "unknown" :=
  (scene_context_defaults_iff_no_substring_match "personally").1.mpr (by decide)

/-- Claim C2, counterexample: `"morning night"` contains keywords of both
the morning group and the night group, and the result is `"night"`, not
`"morning"`: the source checks the night group first, so the enumeration
order morning, day, evening, night of the claim is not the priority
order. -/
theorem night_beats_morning_on_mixed_caption :
    anyIn (pylower "morning night") time_morning_keywords = true ∧
    anyIn (pylower "morning night") time_night_keywords = true ∧
    (analyze_scene_context "morning night").time_of_day = "night" ∧
    "night" ≠ "morning" := by decide

/-- Claim C2 (amended): the `time_of_day` groups are evaluated in the
source order night, morning, day, evening; for every caption matching
more than one group, the assigned value is that of the earliest group in
that order, and `"unknown"` is assigned when no group matches. -/
theorem time_of_day_priority_order (caption : String) :
    (anyIn (pylower caption) time_night_keywords = true →
      (analyze_scene_context caption).time_of_day = "night") ∧
    (anyIn (pylower caption) time_night_keywords = false →
      anyIn (pylower caption) time_morning_keywords = true →
      (analyze_scene_context caption).time_of_day = "morning") ∧
    (anyIn (pylower caption) time_night_keywords = false →
      anyIn (pylower caption) time_morning_keywords = false →
      anyIn (pylower caption) time_day_keywords = true →
      (analyze_scene_context caption).time_of_day = "day") ∧
    (anyIn (pylower caption) time_night_keywords = false →
      anyIn (pylower caption) time_morning_keywords = false →
      anyIn (pylower caption) time_day_keywords = false →
      anyIn (pylower caption) time_evening_keywords = true →
      (analyze_scene_context caption).time_of_day = "evening") ∧
    (anyIn (pylower caption) time_night_keywords = false →
      anyIn (pylower caption) time_morning_keywords = false →
      anyIn (pylower caption) time_day_keywords = false →
      anyIn (pylower caption) time_evening_keywords = false →
      (analyze_scene_context caption).time_of_day = "unknown") := by
  refine ⟨?_, ?_, ?_, ?_, ?_⟩
  · intro h1
    simp [analyze_scene_context, timeOfDayOf, h1]
  · intro h1 h2
    simp [analyze_scene_context, timeOfDayOf, h1, h2]
  · intro h1 h2 h3
    simp [analyze_scene_context, timeOfDayOf, h1, h2, h3]
  · intro h1 h2 h3 h4
    simp [analyze_scene_context, timeOfDayOf, h1, h2, h3, h4]
  · intro h1 h2 h3 h4
    simp [analyze_scene_context, timeOfDayOf, h1, h2, h3, h4]

/-- Claim C2 witness: `"sunrise at dusk"` has a morning keyword and an
evening keyword and no night keyword, so morning (earlier in the source
order) wins. -/
theorem time_of_day_priority_witness :
    (analyze_scene_context "sunrise at dusk").time_of_day = "morning" :=
  (time_of_day_priority_order "sunrise at dusk").2.1 (by decide) (by decide)

/-- Claim C3, counterexample: for the caption `"smiling"` the inferred
mood is the non-default `"positive"`, yet the synthesized description is
exactly the caption: no sentence is appended for the mood field, because
`create_ai_description` has no mood branch. -/
theorem mood_sentence_missing_for_smiling :
    (analyze_scene_context "smiling").mood = "positive" ∧
    "positive" ≠ "neutral" ∧
    create_ai_description "smiling" (analyze_scene_context "smiling")
      (extract_tags_from_caption "smiling") = "smiling" := by decide

/-- Claim C3 (amended): `create_ai_description` appends one templated
sentence per non-default `setting`, `time_of_day`, `activity_level` and
`social_context` field, but the mood field never contributes: the output
is invariant under changing the mood. -/
theorem description_sentences_per_field (caption : String)
    (context : SceneContext) (tags : List String) :
    (∀ m : String, create_ai_description caption
        { context with mood := m } tags = create_ai_description caption context tags) ∧
    (context.setting ≠ "unknown" →
      ("This appears to be an " ++ context.setting ++ " scene.").data <:+:
        (create_ai_description caption context tags).data) ∧
    (context.time_of_day ≠ "unknown" →
      ("The time appears to be " ++ context.time_of_day ++ ".").data <:+:
        (create_ai_description caption context tags).data) ∧
    (context.activity_level ≠ "unknown" →
      ("The activity level in the image is " ++ context.activity_level ++ ".").data <:+:
        (create_ai_description caption context tags).data) ∧
    (context.social_context = "group" →
      "This involves multiple people or a group setting.".data <:+:
        (create_ai_description caption context tags).data) ∧
    (context.social_context ≠ "unknown" → context.social_context ≠ "group" →
      "This focuses on an individual person.".data <:+:
        (create_ai_description caption context tags).data) := by
  refine ⟨fun m => rfl, ?_, ?_, ?_, ?_, ?_⟩
  · intro h
    refine mem_joinSep_infix " " _ _ ?_
    simp [create_ai_description, h]
  · intro h
    refine mem_joinSep_infix " " _ _ ?_
    simp [create_ai_description, h]
  · intro h
    refine mem_joinSep_infix " " _ _ ?_
    simp [create_ai_description, h]
  · intro h
    refine mem_joinSep_infix " " _ _ ?_
    simp [create_ai_description, h]
  · intro h1 h2
    refine mem_joinSep_infix " " _ _ ?_
    simp [create_ai_description, h1, h2]

/-- Claim C3 witness: a context with a non-default setting gets the
setting sentence in the output. -/
theorem description_sentences_witness :
    ("This appears to be an outdoor scene.").data <:+:
      (create_ai_description "x"
        { setting := "outdoor", time_of_day := "night", activity_level := "high",
          social_context := "group", mood := "positive" } []).data :=
  (description_sentences_per_field "x"
    { setting := "outdoor", time_of_day := "night", activity_level := "high",
      social_context := "group", mood := "positive" } []).2.1 (by decide)

/-- Claim C4: on an upstream error the orchestrator returns exactly the
fixed-shape error record: the filename, the timestamp, the error message,
empty captions, tags and scene context, the fixed apology description and
the two fixed fallback topics; being a fixed record, none of the
classification components contributes to it. -/
theorem error_record_fixed_shape (filename timestamp msg : String) :
    generate_ai_optimized_description filename timestamp (Except.error msg) =
      { filename := filename, timestamp := timestamp, error := some msg,
        image_properties := none,
        ai_description := "Unable to process this image. Please try again or use a different image.",
        captions := [], tags := [], scene_context := [],
        related_topics := ["image analysis", "technical support"] } := rfl

/-- Claim C5: the extracted tag list has no duplicates, every returned
term matches with word boundaries somewhere in the lowered caption (so
the matching is case-insensitive against the input), and the empty
caption yields no tags.  The embedding is a total function, matching the
never-raises part of the claim. -/
theorem extracted_tags_nodup_and_word_boundary (caption : String) :
    (extract_tags_from_caption caption).Nodup ∧
    (∀ t, t ∈ extract_tags_from_caption caption →
      ∃ j, wbMatchAt (pylower caption) j t.data = true) ∧
    extract_tags_from_caption "" = [] :=
  ⟨List.nodup_dedup _, fun t ht => extract_tags_sound caption t ht, by decide⟩

/-- Claim C5 witness: on `"dog"` the tag `"dog"` is returned and matches
with word boundaries. -/
theorem extracted_tags_witness :
    (extract_tags_from_caption "dog").Nodup ∧
    (∃ j, wbMatchAt (pylower "dog") j "dog".data = true) :=
  ⟨(extracted_tags_nodup_and_word_boundary "dog").1,
   (extracted_tags_nodup_and_word_boundary "dog").2.1 "dog" (by decide)⟩

/-- Claim C6: for every tag list and context the related-topics list has
length at most 5 and no duplicate entries. -/
theorem related_topics_at_most_five_nodup (tags : List String)
    (context : SceneContext) :
    (generate_related_topics tags context).length ≤ 5 ∧
    (generate_related_topics tags context).Nodup :=
  ⟨List.length_take_le _ _,
   List.Nodup.sublist (List.take_sublist _ _) (List.nodup_dedup _)⟩

/-- Claim C7, counterexample: the error-path record stores an empty
mapping as `scene_context`, so none of the five fields is present there;
looking up `setting` finds nothing. -/
theorem error_record_scene_context_empty :
    (generate_ai_optimized_description "x.jpg" "2024-01-01T00:00:00"
        (Except.error "file not found")).scene_context = [] ∧
    List.lookup "setting"
      (generate_ai_optimized_description "x.jpg" "2024-01-01T00:00:00"
        (Except.error "file not found")).scene_context = none := by decide

/-- Claim C7 (amended): `analyze_scene_context` populates exactly the five
fields, each with a value from its enumerated domain, and the success-path
record stores that five-field mapping; the error-path record instead
stores an empty `scene_context` mapping. -/
theorem scene_context_five_fields_success_path
    (caption filename timestamp msg : String) (u : UpstreamOk) :
    (List.lookup "setting" (SceneContext.toPairs (analyze_scene_context caption)) =
        some (analyze_scene_context caption).setting ∧
      (analyze_scene_context caption).setting ∈ ["indoor", "outdoor", "unknown"]) ∧
    (List.lookup "time_of_day" (SceneContext.toPairs (analyze_scene_context caption)) =
        some (analyze_scene_context caption).time_of_day ∧
      (analyze_scene_context caption).time_of_day ∈
        ["morning", "day", "evening", "night", "unknown"]) ∧
    (List.lookup "activity_level" (SceneContext.toPairs (analyze_scene_context caption)) =
        some (analyze_scene_context caption).activity_level ∧
      (analyze_scene_context caption).activity_level ∈ ["high", "medium", "low", "unknown"]) ∧
    (List.lookup "social_context" (SceneContext.toPairs (analyze_scene_context caption)) =
        some (analyze_scene_context caption).social_context ∧
      (analyze_scene_context caption).social_context ∈ ["group", "individual", "unknown"]) ∧
    (List.lookup "mood" (SceneContext.toPairs (analyze_scene_context caption)) =
        some (analyze_scene_context caption).mood ∧
      (analyze_scene_context caption).mood ∈ ["positive", "focused", "calm", "neutral"]) ∧
    (generate_ai_optimized_description filename timestamp (Except.ok u)).scene_context =
      SceneContext.toPairs (analyze_scene_context u.primary) ∧
    (generate_ai_optimized_description filename timestamp (Except.error msg)).scene_context = [] :=
  ⟨⟨rfl, settingOf_mem _⟩, ⟨rfl, timeOfDayOf_mem _⟩, ⟨rfl, activityLevelOf_mem _⟩,
   ⟨rfl, socialContextOf_mem _⟩, ⟨rfl, moodOf_mem _⟩, rfl, rfl⟩

/-- Claim C8, counterexample: for the caption of Example 2 the candidate
pool has 7 topics, and an admissible set iteration order exists whose
first five entries omit `sports`, so the program (which truncates
`list(set(topics))` in unspecified hash-randomized set order) does not
guarantee that the returned list includes `sports`. -/
theorem truncation_order_can_drop_sports :
    ¬ (∀ order : List String,
        IsSetOrder order
          (related_topics_pool
            (extract_tags_from_caption "a group of people playing basketball at night")
            (analyze_scene_context "a group of people playing basketball at night")) →
        "sports" ∈ order.take 5) := by
  intro h
  exact absurd
    (h ["motivation", "energy", "active lifestyle", "team activities",
        "competition", "athletics", "sports"] (by decide))
    (by decide)

/-- Claim C8 (amended): for the caption of Example 2 the tags include
`people`, `playing`, `basketball` and `night`; the context has
`time_of_day` night and `social_context` group; and `sports` and
`athletics` are both in the deduplicated candidate-topic set, so every
admissible enumeration of `list(set(topics))` contains both — but which
five survive the `[:5]` truncation depends on the unspecified set order,
so only membership in the pool (and that the truncated result draws from
the pool) is guaranteed, not membership in the final five. -/
theorem example_group_basketball_night_pool :
    ("people" ∈ extract_tags_from_caption "a group of people playing basketball at night" ∧
     "playing" ∈ extract_tags_from_caption "a group of people playing basketball at night" ∧
     "basketball" ∈ extract_tags_from_caption "a group of people playing basketball at night" ∧
     "night" ∈ extract_tags_from_caption "a group of people playing basketball at night") ∧
    (analyze_scene_context "a group of people playing basketball at night").time_of_day = "night" ∧
    (analyze_scene_context "a group of people playing basketball at night").social_context = "group" ∧
    (∀ order : List String,
      IsSetOrder order
        (related_topics_pool
          (extract_tags_from_caption "a group of people playing basketball at night")
          (analyze_scene_context "a group of people playing basketball at night")) →
      "sports" ∈ order ∧ "athletics" ∈ order ∧
      ∀ t, t ∈ order.take 5 →
        t ∈ related_topics_pool
          (extract_tags_from_caption "a group of people playing basketball at night")
          (analyze_scene_context "a group of people playing basketball at night")) := by
  refine ⟨by decide, by decide, by decide, ?_⟩
  intro order h
  have hp : order.Perm
      (related_topics_pool
        (extract_tags_from_caption "a group of people playing basketball at night")
        (analyze_scene_context "a group of people playing basketball at night")) := h
  refine ⟨hp.symm.subset (by decide), hp.symm.subset (by decide), ?_⟩
  intro t ht
  exact hp.subset (List.take_subset 5 order ht)

/-- Claim C8 witness: the deduplication-order enumeration of the pool is
an admissible set order, and on it both topics are present and the first
five entries all come from the pool. -/
theorem example_pool_order_witness :
    "sports" ∈ ["sports", "athletics", "competition", "team activities",
        "active lifestyle", "energy", "motivation"] ∧
    "athletics" ∈ ["sports", "athletics", "competition", "team activities",
        "active lifestyle", "energy", "motivation"] ∧
    ∀ t, t ∈ (["sports", "athletics", "competition", "team activities",
        "active lifestyle", "energy", "motivation"].take 5) →
      t ∈ related_topics_pool
        (extract_tags_from_caption "a group of people playing basketball at night")
        (analyze_scene_context "a group of people playing basketball at night") :=
  (example_group_basketball_night_pool).2.2.2
    ["sports", "athletics", "competition", "team activities",
     "active lifestyle", "energy", "motivation"] (by decide)

/-- Claim C9: on the error path the record stores an empty `captions`
list, so `image_to_caption` hits the `[0]` index of an empty list — an
`IndexError` — rather than the fallback string; more generally the index
step fails on every record with empty captions, and the fallback string
is produced when a first caption entry exists without a `"text"` key. -/
theorem caption_fallback_only_without_text_key (filename timestamp msg : String) :
    image_to_caption filename timestamp (Except.error msg) =
      Except.error "IndexError: list index out of range" ∧
    (∀ r : AIRecord, r.captions = [] →
      caption_text_of r = Except.error "IndexError: list index out of range") ∧
    (∀ (r : AIRecord) (c : CaptionVariant) (l : List CaptionVariant),
      r.captions = c :: l → c.text = none →
      caption_text_of r = Except.ok "Unable to generate caption") := by
  refine ⟨rfl, ?_, ?_⟩
  · intro r h
    unfold caption_text_of
    rw [h]
  · intro r c l h hc
    unfold caption_text_of
    rw [h]
    simp [hc]

/-- Claim C9 witness: a record whose single caption entry lacks the text
key produces the fallback string. -/
theorem caption_fallback_witness :
    caption_text_of
      { filename := "f", timestamp := "t", error := none, image_properties := none,
        ai_description := "", tags := [], scene_context := [], related_topics := [],
        captions := [{ ctype := some "standard", text := none, confidence := some 85 }] } =
      Except.ok "Unable to generate caption" :=
  (caption_fallback_only_without_text_key "f" "t" "e").2.2 _ _ [] rfl rfl

/-- Claim C10: the topic recommender reads only the tag list and the
`setting` and `activity_level` context fields; two contexts agreeing on
those two fields produce the same topics whatever their `time_of_day`,
`social_context` and `mood`. -/
theorem related_topics_ignore_time_social_mood (tags : List String)
    (c1 c2 : SceneContext) (hs : c1.setting = c2.setting)
    (ha : c1.activity_level = c2.activity_level) :
    generate_related_topics tags c1 = generate_related_topics tags c2 := by
  cases c1
  cases c2
  simp only at hs ha
  subst hs
  subst ha
  rfl

/-- Claim C10 witness: two concrete contexts differing in time, social
context and mood give identical topic lists. -/
theorem related_topics_noninterference_witness :
    generate_related_topics ["basketball"]
      { setting := "outdoor", time_of_day := "night", activity_level := "high",
        social_context := "group", mood := "positive" } =
    generate_related_topics ["basketball"]
      { setting := "outdoor", time_of_day := "day", activity_level := "high",
        social_context := "individual", mood := "neutral" } :=
  related_topics_ignore_time_social_mood ["basketball"] _ _ rfl rfl
